import Mathlib

/-!
Shallow embedding of the Intent Classification & Routing Engine of the
THEEPHONE backend (src/backend/app/main.py and
src/backend/app/services/ollama_service.py), together with proofs of the
routing, extraction, degradation and session-store properties.

Python strings are modelled as Lean `String`; Python dicts with a known key
set are modelled as structures with `Option` fields (a missing key is
`none`); Python exceptions are modelled with `Except PyExn`; collaborator
calls whose code is outside the embedded sources (service handlers, the
language-model client, the contact lookup) are oracle parameters threaded
through the router.  All string helpers below are structurally recursive so
that every definition evaluates inside the kernel.
-/

/-- Python exception value, abstracted to its message text. -/
structure PyExn where
  msg : String
deriving Repr, DecidableEq

/-- Test whether `needle` is an initial segment of `hay` (character lists). -/
def headMatches : List Char → List Char → Bool
  | [], _ => true
  | _ :: _, [] => false
  | a :: as, b :: bs => a == b && headMatches as bs

/-- Test whether `needle` occurs anywhere inside `hay` (character lists). -/
def hasSubList (needle : List Char) : List Char → Bool
  | [] => headMatches needle []
  | b :: bs => headMatches needle (b :: bs) || hasSubList needle bs

/-- Python `needle in hay` substring test. -/
def containsSub (hay needle : String) : Bool :=
  hasSubList needle.data hay.data

/-- Fueled worker for `pyReplace`; fuel is the length of the remaining text,
so the fuel never runs out on the actual calls. -/
def replaceFuel (old new : List Char) : Nat → List Char → List Char
  | _, [] => []
  | 0, l => l
  | fuel + 1, b :: bs =>
    if old ≠ [] && headMatches old (b :: bs) then
      new ++ replaceFuel old new fuel (List.drop (old.length - 1) bs)
    else
      b :: replaceFuel old new fuel bs

/-- Python `s.replace(old, new)`: replace every non-overlapping occurrence,
scanning left to right. -/
def pyReplace (s old new : String) : String :=
  ⟨replaceFuel old.data new.data s.data.length s.data⟩

/-- Fueled worker for `pySplit`; `acc` holds the current segment reversed. -/
def splitFuel (sep : List Char) : Nat → List Char → List Char → List (List Char)
  | _, acc, [] => [acc.reverse]
  | 0, acc, l => [acc.reverse ++ l]
  | fuel + 1, acc, b :: bs =>
    if sep ≠ [] && headMatches sep (b :: bs) then
      acc.reverse :: splitFuel sep fuel [] (List.drop (sep.length - 1) bs)
    else
      splitFuel sep fuel (b :: acc) bs

/-- Python `s.split(sep)` for a non-empty separator. -/
def pySplit (s sep : String) : List String :=
  (splitFuel sep.data s.data.length [] s.data).map List.asString

/-- Python `s.lower()` (ASCII case folding, which covers the sources). -/
def pyLower (s : String) : String :=
  ⟨s.data.map Char.toLower⟩

/-- Python `s.strip()`: drop whitespace from both ends. -/
def pyStrip (s : String) : String :=
  ⟨((s.data.dropWhile Char.isWhitespace).reverse.dropWhile Char.isWhitespace).reverse⟩

/-- Python `s.strip(c)` for a single-character argument: drop every leading
and trailing occurrence of `c`. -/
def pyStripChar (c : Char) (s : String) : String :=
  ⟨((s.data.dropWhile (· == c)).reverse.dropWhile (· == c)).reverse⟩

/-- Python `s.startswith(p)`. -/
def pyStartsWith (s p : String) : Bool :=
  headMatches p.data s.data

/-- Worker for `pyTitle`: the boolean records whether the previous character
was a cased (alphabetic) one. -/
def pyTitleGo : Bool → List Char → List Char
  | _, [] => []
  | prevCased, c :: rest =>
    let c' := if c.isAlpha then (if prevCased then c.toLower else c.toUpper) else c
    c' :: pyTitleGo c.isAlpha rest

/-- Python `s.title()`: uppercase every alphabetic character that follows a
non-alphabetic one, lowercase the rest. -/
def pyTitle (s : String) : String :=
  ⟨pyTitleGo false s.data⟩

/-- Python truthiness of an optional string (`None` and `""` are falsy). -/
def tokenTruthy : Option String → Bool
  | none => false
  | some s => !(s == "")

/-- Embedding of `get_fallback_response` (main.py lines 77-117).  The only
impure ingredient of the source is `datetime.now().strftime(...)` in the
time/date branch; its formatted text is passed in as `nowStr`. -/
def get_fallback_response (nowStr : String) (message : String) : String :=
  let message_lower := pyStrip (pyLower message)
  if ["hello", "hi", "hey", "good morning", "good afternoon", "good evening"].any
      (fun greeting => containsSub message_lower greeting) then
    "Hello! I'm your AI assistant. I can help you with Google services like Calendar, Gmail, Drive, Contacts, and more. What can I do for you today?"
  else if ["how are you", "how do you do", "what's up"].any
      (fun phrase => containsSub message_lower phrase) then
    "I'm doing great and ready to help! I can assist you with managing your Google services, checking your calendar, sending messages, and much more."
  else if ["help", "what can you do", "capabilities", "features"].any
      (fun word => containsSub message_lower word) then
    "I can help you with:\n📅 Calendar - Check events, create meetings, schedule appointments\n📧 Gmail - Send emails, check messages\n📁 Drive - Manage files and folders\n📊 Sheets - Create and edit spreadsheets\n📝 Docs - Create and edit documents\n👥 Contacts - Find and manage your contacts\n📱 SMS - Send text messages to your contacts\n📸 Images - Process photos and extract information\n\nJust ask me things like \"What's on my calendar today?\" or \"Text John saying I'll be late\" and I'll help you!"
  else if ["time", "date", "today", "now"].any
      (fun word => containsSub message_lower word) then
    "The current date and time is " ++ nowStr ++ ". How can I help you today?"
  else if ["thank you", "thanks", "thank", "appreciate"].any
      (fun phrase => containsSub message_lower phrase) then
    "You're welcome! I'm here whenever you need help with your Google services or anything else."
  else if ["bye", "goodbye", "see you", "farewell"].any
      (fun word => containsSub message_lower word) then
    "Goodbye! Feel free to come back anytime you need assistance with your Google services or other tasks."
  else
    "I understand you're trying to communicate with me. While my full AI capabilities are temporarily limited, I'm still here to help you with Google services like Calendar, Gmail, Drive, and Contacts. Try asking me about your calendar or to help with a specific Google service!"

/-- Month names scanned by the calendar range extraction (main.py 142-146). -/
def monthNames : List String :=
  ["january", "february", "march", "april", "may", "june",
   "july", "august", "september", "october", "november", "december"]

/-- Weekday names scanned by the calendar range extraction (main.py 150-152). -/
def dayNames : List String :=
  ["monday", "tuesday", "wednesday", "thursday", "friday", "saturday", "sunday"]

/-- Embedding of the time-range parsing block of `handle_google_calendar`
(main.py lines 130-155): the `time_range` value detected from the message. -/
def extract_time_range (message : String) : String :=
  let message_lower := pyLower message
  if containsSub message_lower "today" then "today"
  else if containsSub message_lower "tomorrow" then "tomorrow"
  else if containsSub message_lower "this week" then "this week"
  else if containsSub message_lower "next week" then "next week"
  else if monthNames.any (fun month => containsSub message_lower month) then
    match monthNames.find? (fun month => containsSub message_lower month) with
    | some month => pyTitle month
    | none => "upcoming"
  else if dayNames.any (fun day => containsSub message_lower day) then
    match dayNames.find? (fun day => containsSub message_lower day) with
    | some day => pyTitle day
    | none => "upcoming"
  else "upcoming"

/-- Embedding of the default branch of `list_calendar_events` (main.py lines
208-211): for the `upcoming` range the window is `[now, now + 30 days]`.
Instants are modelled as seconds. -/
def upcoming_window (now : Nat) : Nat × Nat :=
  (now, now + 30 * 24 * 60 * 60)

/-- Python loop `for word in ws: if t.startswith(word): t = t[len(word):].strip(); break`
shared by the docs and sheets title fallbacks (main.py 355-358, 422-425). -/
def stripFirstMatchingWord (ws : List String) (t : String) : String :=
  match ws.find? (fun word => pyStartsWith t word) with
  | some word => pyStrip ⟨t.data.drop word.data.length⟩
  | none => t

/-- Embedding of the title extraction of the create branch of
`handle_google_docs` (main.py lines 331-360). -/
def docs_extract_title (message : String) : String :=
  let message_lower := pyLower message
  if containsSub message_lower "about" then
    let parts := pySplit message "about"
    if parts.length > 1 then pyTitle (pyStrip parts[1]!) else "New Document"
  else if containsSub message_lower "called" then
    let parts := pySplit message "called"
    if parts.length > 1 then pyTitle (pyStrip parts[1]!) else "New Document"
  else if containsSub message_lower "titled" then
    let parts := pySplit message "titled"
    if parts.length > 1 then pyTitle (pyStrip parts[1]!) else "New Document"
  else if containsSub message_lower "document" then
    let parts := pySplit message_lower "document"
    if parts.length > 1 && pyStrip parts[1]! ≠ "" then
      let potential_title := pyStrip parts[1]!
      let potential_title := stripFirstMatchingWord ["for", "about", "on", "with"] potential_title
      if potential_title ≠ "" then pyTitle potential_title else "New Document"
    else "New Document"
  else "New Document"

/-- Embedding of the title extraction of the create branch of
`handle_google_sheets` (main.py lines 404-427). -/
def sheets_extract_title (message : String) : String :=
  let message_lower := pyLower message
  if containsSub message_lower "for" then
    let parts := pySplit message "for"
    if parts.length > 1 then pyTitle (pyStrip parts[1]!) else "New Spreadsheet"
  else if containsSub message_lower "called" then
    let parts := pySplit message "called"
    if parts.length > 1 then pyTitle (pyStrip parts[1]!) else "New Spreadsheet"
  else if containsSub message_lower "spreadsheet" then
    let parts := pySplit message_lower "spreadsheet"
    if parts.length > 1 && pyStrip parts[1]! ≠ "" then
      let potential_title := pyStrip parts[1]!
      let potential_title := stripFirstMatchingWord ["for", "about", "to track", "to manage"] potential_title
      if potential_title ≠ "" then pyTitle potential_title else "New Spreadsheet"
    else "New Spreadsheet"
  else "New Spreadsheet"

/-- Python `s.isdigit()` restricted to ASCII digits (all the sources compare
against contact queries, which are ASCII). -/
def pyIsDigit (s : String) : Bool :=
  s ≠ "" && s.data.all Char.isDigit

/-- Classification record returned by `IntentClassifier.classify`: the router
(main.py 706, 714, 761) reads the keys `type` and `service`. -/
structure IntentResult where
  type : String
  service : String
deriving Repr, DecidableEq

/-- Session entry (main.py 71-74): a mutable state mapping and a creation
timestamp.  The only value the router ever stores in the state mapping is
the intent classification (main.py 702), so the mapping is typed
`String × IntentResult`. -/
structure Session where
  state : List (String × IntentResult)
  created_at : Nat
deriving Repr, DecidableEq

/-- The module-level `sessions` dict (main.py 38), as an association list. -/
abbrev Sessions := List (String × Session)

/-- Session key `f"{user_id}_{session_id}"` (main.py 69). -/
def sessionKey (user_id session_id : String) : String :=
  user_id ++ "_" ++ session_id

/-- Embedding of `ensure_session` (main.py lines 66-75): create the entry on
first use, return the stored entry afterwards.  `now` stands for
`datetime.now()`. -/
def ensure_session (now : Nat) (user_id session_id : String) (sessions : Sessions) :
    Sessions × Session :=
  let key := sessionKey user_id session_id
  match List.lookup key sessions with
  | some s => (sessions, s)
  | none =>
    let s : Session := { state := [], created_at := now }
    ((key, s) :: sessions, s)

/-- Python dict assignment `d[k] = v` on an association list. -/
def assocSet {α : Type} (k : String) (v : α) : List (String × α) → List (String × α)
  | [] => [(k, v)]
  | (k', v') :: rest => if k' == k then (k, v) :: rest else (k', v') :: assocSet k v rest

/-- The statement `session["state"]["intent_classification"] = intent_result`
(main.py 702): the session object is aliased inside the `sessions` dict, so
this updates the stored entry under `key`. -/
def storeIntent (key : String) (ir : IntentResult) : Sessions → Sessions
  | [] => []
  | (k, s) :: rest =>
    if k == key then
      (k, { s with state := assocSet "intent_classification" ir s.state }) :: rest
    else (k, s) :: storeIntent key ir rest

/-- Result dict of a service handler, restricted to the keys the router and
the claims read: `error`, `action`, `instruction`, `recipient`,
`contact_name`, `message_content`, `schedule`, `status`, `response`.
A key absent from the dict is `none`. -/
structure ServiceResult where
  error : Option String := none
  action : Option String := none
  instruction : Option String := none
  recipient : Option String := none
  contact_name : Option String := none
  message_content : Option String := none
  schedule : Option String := none
  status : Option String := none
  response : Option String := none
deriving Repr, DecidableEq

/-- Contact record returned by the People API lookup in `handle_sms`
(main.py 628-636): the phone-number values and the optional `displayName` of
each name entry. -/
structure Contact where
  phoneNumbers : List String
  names : List (Option String)
deriving Repr, DecidableEq

/-- Oracle inputs of `handle_sms` whose code lives outside src/ or performs
network I/O: the parse produced by `advanced_sms_service.parse_sms_command`
(main.py 546-553), the confirmation text of
`advanced_sms_service.schedule_sms` (main.py 587-591), the People API
contact search (main.py 620-636, errors there are caught and logged, which
behaves like an empty search), and the length of
`advanced_sms_service.list_scheduled_messages()` (main.py 657-661). -/
structure SmsEnv where
  cmdSchedule : Option String := none
  cmdRecipient : String := ""
  cmdMessage : String := ""
  scheduleConfirmation : String := ""
  contactLookup : String → Option Contact := fun _ => none
  scheduledCount : Nat := 0

/-- Contact resolution shared by the schedule and immediate paths of
`handle_sms` (main.py 570-578 and 628-636): returns the found phone number
(if any) and the display name, defaulting to the query. -/
def resolveContact (lookup : String → Option Contact) (query : String) :
    Option String × String :=
  match lookup query with
  | none => (none, query)
  | some contact =>
    match contact.phoneNumbers with
    | [] => (none, query)
    | p :: _ =>
      match contact.names with
      | [] => (some p, query)
      | n :: _ => (some p, n.getD query)

/-- Embedding of `handle_sms` (main.py lines 542-676). -/
def handle_sms (env : SmsEnv) (message : String) (access_token : Option String) :
    ServiceResult :=
  if env.cmdSchedule.isSome then
    let recipient := env.cmdRecipient
    let sms_content := env.cmdMessage
    let resolved :=
      if tokenTruthy access_token && recipient ≠ "" && !(pyIsDigit recipient) then
        resolveContact env.contactLookup recipient
      else (none, recipient)
    let phone_number := resolved.1.getD recipient
    { action := some "schedule_sms", recipient := some phone_number,
      contact_name := some resolved.2, message_content := some sms_content,
      schedule := env.cmdSchedule, instruction := some "SCHEDULE_SMS",
      status := some "scheduled", response := some env.scheduleConfirmation }
  else if containsSub (pyLower message) "text" &&
      (containsSub (pyLower message) "saying" || containsSub (pyLower message) "to say") then
    let parts := pySplit (pyReplace (pyLower message) "to say" "saying") "saying"
    if parts.length ≥ 2 then
      let recipient_query :=
        pyStrip (pyReplace (pyReplace (pyReplace (pyReplace parts[0]! "text" "") "send" "")
          "message" "") "to" "")
      let sms_content := pyStripChar '\'' (pyStripChar '"' (pyStrip parts[1]!))
      let resolved :=
        if tokenTruthy access_token then resolveContact env.contactLookup recipient_query
        else (none, recipient_query)
      let phone_number := resolved.1.getD recipient_query
      { action := some "send_sms", recipient := some phone_number,
        contact_name := some resolved.2, message_content := some sms_content,
        instruction := some "SEND_SMS", status := some "ready_to_send",
        response := some ("✅ SMS to " ++ resolved.2 ++ ": \"" ++ sms_content ++
          "\" is ready. Opening SMS app...") }
    else
      { action := some "sms",
        response := some "SMS functionality ready. Try saying \"Text [contact] saying [message]\"" }
  else if containsSub (pyLower message) "list" && containsSub (pyLower message) "scheduled" then
    { action := some "list_scheduled_sms",
      response := some ("You have " ++ toString env.scheduledCount ++ " scheduled SMS messages") }
  else if containsSub (pyLower message) "cancel" && containsSub (pyLower message) "sms" then
    { action := some "cancel_sms", response := some "Please provide the schedule ID to cancel" }
  else
    { action := some "sms",
      response := some "SMS functionality ready. Try saying \"Text [contact] saying [message]\"" }

/-- Request body of `/chat` (main.py 683-688) with the dict-`get` defaults. -/
structure ChatRequest where
  user_id : String := "anon"
  session_id : String := "default"
  message : String := ""
  access_token : Option String := none
deriving Repr, DecidableEq

/-- Outbound JSON of `handle_chat` (main.py 747-753 and 797-800): the
`instruction`, `recipient` and `message_content` keys exist only on the SMS
instruction path. -/
structure ChatResponse where
  response : String
  source : String
  instruction : Option String := none
  recipient : Option String := none
  message_content : Option String := none
deriving Repr, DecidableEq

/-- Observable outcome of one `handle_chat` call: the response, the sessions
dict after the call, and how many times a service handler was invoked. -/
structure RouterOutcome where
  resp : ChatResponse
  sessionsAfter : Sessions
  handlerCalls : Nat
deriving Repr, DecidableEq

/-- Environment of one `handle_chat` call.  `parse` is the outcome of
`await request.json()` plus field extraction (main.py 683-688, it raises on
a malformed body); `classify` is `intent_classifier.classify` (its module is
not under src/; per spec §4.1 it is total and never fails); `handlerRun` is
the behaviour of the dispatched service handler (main.py 736); `health` and
`generate` are the language-model probe and generation (main.py 766-772);
`now`/`nowStr` stand for `datetime.now()`. -/
structure RouterEnv where
  parse : Except PyExn ChatRequest
  classify : String → IntentResult
  handlerRun : String → String → Option String → Except PyExn ServiceResult
  health : Except PyExn Bool
  generate : Except PyExn (List String)
  now : Nat
  nowStr : String

/-- Modelled from the spec: `ResponseFormatter.format_google_service_response`
is repository code not under src/.  Spec §1 treats formatting as a pure
function `(service_name, structured_result) -> display_text`, and spec
§4.3/§7 require a failed handler result to surface as a scoped user message
naming the service; a non-error result is displayed through its `response`
text when present. -/
def format_google_service_response (service_name : String) (result : ServiceResult) : String :=
  match result.error with
  | some _ => "An error occurred while accessing " ++ pyTitle service_name ++ "."
  | none =>
    match result.response with
    | some text => text
    | none => "Done."

/-- Modelled from the spec: `ResponseFormatter.format_response` is repository
code not under src/.  Spec §1 treats formatting as pure display
prettification, modelled as the identity on the text. -/
def format_response (text : String) (_source : String) : String :=
  text

/-- The keys of the `service_handlers` dispatch table (main.py 718-730). -/
def knownServices : List String :=
  ["calendar", "gmail", "drive", "sheets", "docs", "contacts", "tasks", "keep",
   "slides", "forms", "sms"]

/-- The shared tail of `handle_chat` (main.py 794-800): apply the final
`format_response` cleanup and emit `{response, source}`. -/
def finishResp (text source : String) (sessionsAfter : Sessions) (handlerCalls : Nat) :
    RouterOutcome :=
  { resp := { response := format_response text source, source := source },
    sessionsAfter := sessionsAfter, handlerCalls := handlerCalls }

/-- Embedding of `handle_chat` (main.py lines 681-800). -/
def handle_chat (env : RouterEnv) (sessions0 : Sessions) : Except PyExn RouterOutcome :=
  match env.parse with
  | .error e => .error e
  | .ok data =>
    let ensured := ensure_session env.now data.user_id data.session_id sessions0
    let intent_result : Option IntentResult :=
      if data.message ≠ "" then some (env.classify data.message) else none
    let sessions2 :=
      match intent_result with
      | some ir => storeIntent (sessionKey data.user_id data.session_id) ir ensured.1
      | none => ensured.1
    match intent_result with
    | some ir =>
      if ir.type == "google" then
        if !(tokenTruthy data.access_token) then
          .ok (finishResp ("Please sign in with Google to use " ++ pyTitle ir.service ++
            " services.") "auth_required" sessions2 0)
        else
          let service_name := ir.service
          let response_source := "google_" ++ service_name
          if knownServices.contains service_name then
            match env.handlerRun service_name data.message data.access_token with
            | .error _e =>
              .ok (finishResp ("An error occurred while accessing " ++ pyTitle service_name ++
                ".") response_source sessions2 1)
            | .ok service_result =>
              let final_response := format_google_service_response service_name service_result
              if service_name == "sms" && service_result.instruction.isSome then
                .ok ⟨⟨final_response, response_source, service_result.instruction,
                  service_result.recipient, service_result.message_content⟩, sessions2, 1⟩
              else
                .ok (finishResp final_response response_source sessions2 1)
          else
            .ok (finishResp (pyTitle service_name ++ " service is not yet implemented.")
              response_source sessions2 0)
      else if ir.type == "llm" then
        match env.health with
        | .error _ =>
          .ok (finishResp (get_fallback_response env.nowStr data.message) "assistant" sessions2 0)
        | .ok true =>
          match env.generate with
          | .error _ =>
            .ok (finishResp (get_fallback_response env.nowStr data.message) "assistant" sessions2 0)
          | .ok chunks =>
            let ollama_response := String.join chunks
            .ok (finishResp (format_response ollama_response "ollama") "assistant" sessions2 0)
        | .ok false =>
          .ok (finishResp (get_fallback_response env.nowStr data.message) "assistant" sessions2 0)
      else
        .ok (finishResp "I'm not sure how to help with that. Could you please rephrase your request?"
          "system" sessions2 0)
    | none => .ok (finishResp "Please provide a message." "system" sessions2 0)

/-- Embedding of the `aiohttp.ClientError` branch of `OllamaService.generate`
(services/ollama_service.py lines 94-96): a transport fault does not raise
out of the generator, it yields this error text as an ordinary chunk. -/
def ollamaTransportFaultChunk (base_url : String) : String :=
  "Error: Could not connect to Ollama at " ++ base_url ++ ". Is Ollama running?"

theorem helper_examples :
    containsSub "text mom saying hi" "saying" = true ∧
    pyReplace "to say it to say" "to say" "saying" = "saying it saying" ∧
    pySplit "text mom saying hi" "saying" = ["text mom ", " hi"] ∧
    pyLower "Text MOM" = "text mom" ∧
    pyStrip "  mom  " = "mom" ∧
    pyStripChar '\'' "'hi there'" = "hi there" ∧
    pyTitle "budget plan" = "Budget Plan" ∧
    pyTitle "i'll be late" = "I'Ll Be Late" ∧
    pyStartsWith "forest" "for" = true := by
  decide

/-- C10 counterexample: the store key is the concatenation
`user_id ++ "_" ++ session_id`, which is not injective on pairs.  The two
distinct pairs `("a", "b_c")` and `("a_b", "c")` collide on the key
`"a_b_c"`: after the first pair's session is created, `ensure_session` for
the second pair returns that same entry and creates no new one, so two
distinct pairs share session state, contradicting the claim. -/
theorem C10_counterexample :
    (("a", "b_c") ≠ (("a_b" : String), ("c" : String))) ∧
    sessionKey "a" "b_c" = sessionKey "a_b" "c" ∧
    (ensure_session 1 "a_b" "c" (ensure_session 0 "a" "b_c" []).1).2 =
      (ensure_session 0 "a" "b_c" []).2 ∧
    ((ensure_session 1 "a_b" "c" (ensure_session 0 "a" "b_c" []).1).1).length = 1 := by
  decide

/-- C10 amended: sessions are identified by the joined key
`user_id ++ "_" ++ session_id`.  For a key not yet present, `ensure_session`
lazily creates a fresh entry with empty state; for a present key it returns
the stored entry and leaves the store unchanged (so every later call with
the same pair yields that same entry for the process lifetime); and two
pairs with different joined keys never touch each other's entry. -/
theorem C10_session_identity (now : Nat) (u s u' s' : String) (ss : Sessions)
    (hne : sessionKey u s ≠ sessionKey u' s') :
    (List.lookup (sessionKey u s) ss = none →
      ensure_session now u s ss =
        ((sessionKey u s, { state := [], created_at := now }) :: ss,
         { state := [], created_at := now })) ∧
    (∀ e, List.lookup (sessionKey u s) ss = some e → ensure_session now u s ss = (ss, e)) ∧
    (List.lookup (sessionKey u' s') (ensure_session now u s ss).1 =
      List.lookup (sessionKey u' s') ss) := by
  have hbne : (sessionKey u' s' == sessionKey u s) = false :=
    beq_eq_false_iff_ne.mpr (fun hc => hne hc.symm)
  refine ⟨fun h => ?_, fun e h => ?_, ?_⟩
  · simp only [ensure_session, h]
  · simp only [ensure_session, h]
  · cases h : List.lookup (sessionKey u s) ss with
    | some e => simp only [ensure_session, h]
    | none =>
      simp only [ensure_session, h, List.lookup, hbne]

/-- C10 witness. -/
theorem C10_session_identity_witness :
    ensure_session 5 "u1" "s1" [] =
      ((sessionKey "u1" "s1", { state := [], created_at := 5 }) :: [],
       { state := [], created_at := 5 }) :=
  (C10_session_identity 5 "u1" "s1" "u2" "s2" [] (by decide)).1 (by decide)

/-- C8: the calendar time-range extraction maps the literal phrases to their
range tokens with the source's precedence; "what's on my calendar tomorrow"
gives `tomorrow`, "show my calendar" gives `upcoming`, and any message whose
lowercasing contains none of the phrases (the four relative phrases, the
month names, the weekday names) defaults to `upcoming`, whose listing window
is the next 30 days. -/
theorem C8_calendar_range (msg : String) (now : Nat)
    (hnone : ((["today", "tomorrow", "this week", "next week"] ++ monthNames ++ dayNames).all
      (fun p => !(containsSub (pyLower msg) p))) = true) :
    extract_time_range "what's on my calendar tomorrow" = "tomorrow" ∧
    extract_time_range "show my calendar" = "upcoming" ∧
    extract_time_range "today" = "today" ∧
    extract_time_range "this week" = "this week" ∧
    extract_time_range "next week" = "next week" ∧
    extract_time_range "january" = "January" ∧
    extract_time_range "monday" = "Monday" ∧
    extract_time_range msg = "upcoming" ∧
    (upcoming_window now).2 - (upcoming_window now).1 = 30 * 24 * 60 * 60 := by
  have hall : ∀ p ∈ (["today", "tomorrow", "this week", "next week"] ++ monthNames ++ dayNames),
      containsSub (pyLower msg) p = false := by
    intro p hp
    have := List.all_eq_true.mp hnone p hp
    simpa using this
  have hmon : (monthNames.any (fun month => containsSub (pyLower msg) month)) = false := by
    rw [List.any_eq_false]
    intro x hx
    simp [hall x (List.mem_append.mpr (Or.inl (List.mem_append.mpr (Or.inr hx))))]
  have hday : (dayNames.any (fun day => containsSub (pyLower msg) day)) = false := by
    rw [List.any_eq_false]
    intro x hx
    simp [hall x (List.mem_append.mpr (Or.inr hx))]
  have h1 := hall "today" (by decide)
  have h2 := hall "tomorrow" (by decide)
  have h3 := hall "this week" (by decide)
  have h4 := hall "next week" (by decide)
  refine ⟨by decide, by decide, by decide, by decide, by decide, by decide, by decide, ?_, by simp [upcoming_window]⟩
  unfold extract_time_range
  simp [h1, h2, h3, h4, hmon, hday]

/-- C8 witness. -/
theorem C8_calendar_range_witness :
    extract_time_range "xyz" = "upcoming" ∧
    (upcoming_window 0).2 - (upcoming_window 0).1 = 30 * 24 * 60 * 60 :=
  ⟨(C8_calendar_range "xyz" 0 (by decide)).2.2.2.2.2.2.2.1,
   (C8_calendar_range "xyz" 0 (by decide)).2.2.2.2.2.2.2.2⟩

/-- C9 counterexample: the claim's fixed marker order is
"called", "titled", "about", "for", under which
"create a document called Plan about Cats" would split on "called" and give
the title "Plan About Cats".  The docs handler checks "about" first
(main.py 337-348), so the code gives "Cats". -/
theorem C9_counterexample :
    docs_extract_title "create a document called Plan about Cats" = "Cats" ∧
    "Cats" ≠ "Plan About Cats" := by
  decide

/-- C9 amended: title extraction tries a per-handler fixed ordered marker
list — docs: "about", "called", "titled", then a "document"-remainder
heuristic; sheets: "for", "called", then a "spreadsheet"-remainder heuristic
— the first marker found splits the text and the trimmed, title-cased
remainder becomes the title; when no marker matches the fixed defaults
"New Document" / "New Spreadsheet" are used.  The claim's concrete examples
hold. -/
theorem C9_title_extraction (msg msg' : String)
    (hdocs : (["about", "called", "titled", "document"].all
      (fun m => !(containsSub (pyLower msg) m))) = true)
    (hsheets : (["for", "called", "spreadsheet"].all
      (fun m => !(containsSub (pyLower msg') m))) = true) :
    docs_extract_title "create a document called Budget Plan" = "Budget Plan" ∧
    docs_extract_title "create a new document" = "New Document" ∧
    sheets_extract_title "create a new spreadsheet" = "New Spreadsheet" ∧
    sheets_extract_title "create a spreadsheet for groceries" = "Groceries" ∧
    docs_extract_title msg = "New Document" ∧
    sheets_extract_title msg' = "New Spreadsheet" := by
  simp only [List.all_cons, List.all_nil, Bool.and_eq_true, Bool.and_true,
    Bool.not_eq_true'] at hdocs hsheets
  obtain ⟨d1, d2, d3, d4⟩ := hdocs
  obtain ⟨s1, s2, s3⟩ := hsheets
  refine ⟨by decide, by decide, by decide, by decide, ?_, ?_⟩
  · unfold docs_extract_title
    simp only [d1, d2, d3, d4, if_false, Bool.false_eq_true]
  · unfold sheets_extract_title
    simp only [s1, s2, s3, if_false, Bool.false_eq_true]

/-- C9 witness. -/
theorem C9_title_extraction_witness :
    docs_extract_title "xyz" = "New Document" ∧ sheets_extract_title "xyz" = "New Spreadsheet" :=
  ⟨(C9_title_extraction "xyz" "xyz" (by decide) (by decide)).2.2.2.2.1,
   (C9_title_extraction "xyz" "xyz" (by decide) (by decide)).2.2.2.2.2⟩

/-- C6 counterexample: the immediate-send extraction operates on the
lowercased message (main.py 607: `message.lower().replace(...).split(...)`),
so "Text Mom saying I'll be late" yields the recipient query "mom" and the
body "i'll be late", not "Mom" and "I'll be late" as the claim states. -/
theorem C6_counterexample :
    handle_sms {} "Text Mom saying I'll be late" none =
      { action := some "send_sms", recipient := some "mom", contact_name := some "mom",
        message_content := some "i'll be late", instruction := some "SEND_SMS",
        status := some "ready_to_send",
        response := some "✅ SMS to mom: \"i'll be late\" is ready. Opening SMS app..." } ∧
    (some "mom" : Option String) ≠ some "Mom" ∧
    (some "i'll be late" : Option String) ≠ some "I'll be late" := by
  decide

/-- C6 amended: for a message whose lowercasing contains "text" and
("saying" or "to say") with no schedule cue, extraction lowercases the
message, normalizes "to say" to "saying", splits on "saying", strips the
substrings "text", "send", "message", "to" from the segment before the split
and trims it to get the recipient query, and trims whitespace and quote
characters from the segment after to get the body — so "Text Mom saying
I'll be late" yields recipient query "mom", body "i'll be late" and the
immediate-send path.  A message lacking the cue combination (and not
matching the scheduled-list or cancel managements) yields the generic
SMS-help reply with no extracted parameters. -/
theorem C6_sms_extraction (msg : String) (env : SmsEnv)
    (hsched : env.cmdSchedule = none)
    (hno : (containsSub (pyLower msg) "text" &&
      (containsSub (pyLower msg) "saying" || containsSub (pyLower msg) "to say")) = false)
    (hnolist : (containsSub (pyLower msg) "list" && containsSub (pyLower msg) "scheduled") = false)
    (hnocancel : (containsSub (pyLower msg) "cancel" && containsSub (pyLower msg) "sms") = false) :
    (handle_sms {} "Text Mom saying I'll be late" none =
      { action := some "send_sms", recipient := some "mom", contact_name := some "mom",
        message_content := some "i'll be late", instruction := some "SEND_SMS",
        status := some "ready_to_send",
        response := some "✅ SMS to mom: \"i'll be late\" is ready. Opening SMS app..." }) ∧
    (handle_sms env msg none =
      { action := some "sms",
        response := some "SMS functionality ready. Try saying \"Text [contact] saying [message]\"" }) := by
  refine ⟨by decide, ?_⟩
  unfold handle_sms
  simp only [hsched, hno, hnolist, hnocancel, Option.isSome_none, if_false, Bool.false_eq_true]

/-- C6 witness. -/
theorem C6_sms_extraction_witness :
    handle_sms {} "hello there" none =
      { action := some "sms",
        response := some "SMS functionality ready. Try saying \"Text [contact] saying [message]\"" } :=
  (C6_sms_extraction "hello there" {} rfl (by decide) (by decide) (by decide)).2

/-- C1 counterexample: `await request.json()` (main.py 683) is not inside
any try/except of `handle_chat`, so a request-parsing exception (a malformed
JSON body) escapes the router's boundary unconverted and no outbound
response is produced, contradicting the claim that every downstream
exception, request parsing included, is caught. -/
theorem C1_counterexample :
    handle_chat
      { parse := .error ⟨"JSONDecodeError"⟩, classify := fun _ => ⟨"llm", ""⟩,
        handlerRun := fun _ _ _ => .ok {}, health := .ok true, generate := .ok [],
        now := 0, nowStr := "" } [] = .error ⟨"JSONDecodeError"⟩ := rfl

/-- C1 amended: the router catches exceptions from dispatch and from the
generation pipeline, but not from request parsing, which escapes its
boundary; once the request body has parsed (classification and formatting
being total per the spec's collaborator contracts), every code path of
`handle_chat` produces exactly one well-formed outbound response, whatever
the service handlers, the health probe and the generation call do. -/
theorem C1_router_boundary (env : RouterEnv) (ss : Sessions) (data : ChatRequest)
    (hparse : env.parse = .ok data) :
    ∃ out, handle_chat env ss = .ok out := by
  simp only [handle_chat, hparse]
  repeat' split
  all_goals exact ⟨_, rfl⟩

/-- C1 witness. -/
theorem C1_router_boundary_witness :
    ∃ out, handle_chat
      { parse := .ok {}, classify := fun _ => ⟨"llm", ""⟩,
        handlerRun := fun _ _ _ => .ok {}, health := .ok true, generate := .ok [],
        now := 0, nowStr := "" } [] = .ok out :=
  C1_router_boundary _ [] {} rfl

/-- C2: a message classified to a Google service with no access token makes
the router answer with source `auth_required` without consulting any
service handler. -/
theorem C2_auth_gate (env : RouterEnv) (ss : Sessions) (data : ChatRequest)
    (hparse : env.parse = .ok data) (hmsg : data.message ≠ "")
    (hgoogle : (env.classify data.message).type = "google")
    (htok : data.access_token = none) :
    ∃ out, handle_chat env ss = .ok out ∧ out.resp.source = "auth_required" ∧
      out.handlerCalls = 0 := by
  have hm' : (data.message ≠ "") = True := eq_true hmsg
  simp only [handle_chat, hparse, hm', if_true, hgoogle, htok, tokenTruthy,
    beq_self_eq_true, Bool.not_false]
  exact ⟨_, rfl, rfl, rfl⟩

/-- C2 witness. -/
theorem C2_auth_gate_witness :
    ∃ out, handle_chat
      { parse := .ok { message := "check my calendar" },
        classify := fun _ => ⟨"google", "calendar"⟩,
        handlerRun := fun _ _ _ => .ok {}, health := .ok true, generate := .ok [],
        now := 0, nowStr := "" } [] = .ok out ∧
      out.resp.source = "auth_required" ∧ out.handlerCalls = 0 :=
  C2_auth_gate _ [] { message := "check my calendar" } rfl (by decide) rfl rfl

/-- C3: for a structured message dispatched with a credential, a handler
that raises is caught at the dispatch boundary and converted into
"An error occurred while accessing <Service>." with the router still
returning normally, and a handler that returns an error result is likewise
rendered as that scoped service-named message (via the spec-modelled
formatter). -/
theorem C3_dispatch_fault_isolation (env : RouterEnv) (ss : Sessions) (data : ChatRequest)
    (svc : String)
    (hparse : env.parse = .ok data) (hmsg : data.message ≠ "")
    (hcls : env.classify data.message = ⟨"google", svc⟩)
    (htok : tokenTruthy data.access_token = true)
    (hknown : knownServices.contains svc = true) :
    (∀ e, env.handlerRun svc data.message data.access_token = .error e →
      ∃ out, handle_chat env ss = .ok out ∧
        out.resp.response = "An error occurred while accessing " ++ pyTitle svc ++ ".") ∧
    (∀ r emsg, env.handlerRun svc data.message data.access_token = .ok r →
      r.error = some emsg →
      ∃ out, handle_chat env ss = .ok out ∧
        out.resp.response = "An error occurred while accessing " ++ pyTitle svc ++ ".") := by
  have hm' : (data.message ≠ "") = True := eq_true hmsg
  constructor
  · intro e herr
    simp only [handle_chat, hparse, hm', if_true, hcls, htok, herr, hknown,
      beq_self_eq_true, Bool.not_true, Bool.false_eq_true, if_false]
    exact ⟨_, rfl, rfl⟩
  · intro r emsg hok herr
    simp only [handle_chat, hparse, hm', if_true, hcls, htok, hok, hknown,
      beq_self_eq_true, Bool.not_true, Bool.false_eq_true, if_false]
    by_cases hsms : (svc == "sms" && r.instruction.isSome) = true
    · simp only [hsms, if_true]
      exact ⟨_, rfl, by simp [format_google_service_response, herr]⟩
    · simp only [hsms, if_false, Bool.false_eq_true]
      exact ⟨_, rfl, by simp [finishResp, format_response, format_google_service_response, herr]⟩

/-- C3 witness. -/
theorem C3_dispatch_fault_isolation_witness :
    ∃ out, handle_chat
      { parse := .ok { message := "check my calendar", access_token := some "tok" },
        classify := fun _ => ⟨"google", "calendar"⟩,
        handlerRun := fun _ _ _ => .error ⟨"HttpError 500"⟩, health := .ok true,
        generate := .ok [], now := 0, nowStr := "" } [] = .ok out ∧
      out.resp.response = "An error occurred while accessing " ++ pyTitle "calendar" ++ "." :=
  (C3_dispatch_fault_isolation _ [] { message := "check my calendar", access_token := some "tok" }
    "calendar" rfl (by decide) rfl rfl (by decide)).1 ⟨"HttpError 500"⟩ rfl

/-- C4: when the health probe reports failure, an open-ended message is
answered by `get_fallback_response`, which is never empty, answers "hello"
with the greeting reply, and answers any text matching none of the fixed
ordered categories (greeting, status-inquiry, help, date/time, gratitude,
farewell, tested in that order by case-insensitive substring matching) with
the generic capability-summary response. -/
theorem C4_degraded_fallback (nowStr msg : String) (env : RouterEnv) (ss : Sessions)
    (data : ChatRequest)
    (hparse : env.parse = .ok data) (hmsg : data.message ≠ "")
    (hllm : (env.classify data.message).type = "llm")
    (hhealth : env.health = .ok false)
    (h1 : (["hello", "hi", "hey", "good morning", "good afternoon", "good evening"].any
      (fun greeting => containsSub (pyStrip (pyLower msg)) greeting)) = false)
    (h2 : (["how are you", "how do you do", "what's up"].any
      (fun phrase => containsSub (pyStrip (pyLower msg)) phrase)) = false)
    (h3 : (["help", "what can you do", "capabilities", "features"].any
      (fun word => containsSub (pyStrip (pyLower msg)) word)) = false)
    (h4 : (["time", "date", "today", "now"].any
      (fun word => containsSub (pyStrip (pyLower msg)) word)) = false)
    (h5 : (["thank you", "thanks", "thank", "appreciate"].any
      (fun phrase => containsSub (pyStrip (pyLower msg)) phrase)) = false)
    (h6 : (["bye", "goodbye", "see you", "farewell"].any
      (fun word => containsSub (pyStrip (pyLower msg)) word)) = false) :
    (∀ m s, get_fallback_response s m ≠ "") ∧
    (∀ s, get_fallback_response s "hello" =
      "Hello! I'm your AI assistant. I can help you with Google services like Calendar, Gmail, Drive, Contacts, and more. What can I do for you today?") ∧
    (get_fallback_response nowStr msg =
      "I understand you're trying to communicate with me. While my full AI capabilities are temporarily limited, I'm still here to help you with Google services like Calendar, Gmail, Drive, and Contacts. Try asking me about your calendar or to help with a specific Google service!") ∧
    (∃ out, handle_chat env ss = .ok out ∧
      out.resp.response = get_fallback_response env.nowStr data.message ∧
      out.resp.source = "assistant") := by
  have hm' : (data.message ≠ "") = True := eq_true hmsg
  have hgf : ((env.classify data.message).type == "google") = false := by
    rw [hllm]; decide
  have hlt : ((env.classify data.message).type == "llm") = true := by
    rw [hllm]; decide
  refine ⟨?_, fun _ => rfl, ?_, ?_⟩
  · intro m s hcon
    simp only [get_fallback_response] at hcon
    repeat' split at hcon
    all_goals try exact absurd hcon (by decide)
    have hd := congrArg String.data hcon
    simp only [String.data_append] at hd
    obtain ⟨hd1, -⟩ := List.append_eq_nil.mp hd
    obtain ⟨hd2, -⟩ := List.append_eq_nil.mp hd1
    exact absurd hd2 (by decide)
  · unfold get_fallback_response
    simp only [h1, h2, h3, h4, h5, h6, if_false, Bool.false_eq_true]
  · simp only [handle_chat, hparse, hm', if_true, hgf, hlt, hhealth,
      Bool.false_eq_true, if_false]
    exact ⟨_, rfl, rfl, rfl⟩

/-- C4 witness. -/
theorem C4_degraded_fallback_witness :
    get_fallback_response "T" "xkcd" =
      "I understand you're trying to communicate with me. While my full AI capabilities are temporarily limited, I'm still here to help you with Google services like Calendar, Gmail, Drive, and Contacts. Try asking me about your calendar or to help with a specific Google service!" :=
  (C4_degraded_fallback "T" "xkcd"
    { parse := .ok { message := "xkcd" }, classify := fun _ => ⟨"llm", ""⟩,
      handlerRun := fun _ _ _ => .ok {}, health := .ok false, generate := .ok [],
      now := 0, nowStr := "T" } [] { message := "xkcd" }
    rfl (by decide) rfl rfl (by decide) (by decide) (by decide) (by decide) (by decide)
    (by decide)).2.2.1

/-- C5 counterexample: with the probe healthy and the generation call hitting
a transport fault, `OllamaService.generate` yields its connection-error text
as an ordinary chunk (ollama_service.py 94-96) instead of raising, so the
router returns that error text to the user rather than falling through to
the rule-based fallback reply, contradicting the claim. -/
theorem C5_counterexample :
    handle_chat
      { parse := .ok { message := "tell me a joke" }, classify := fun _ => ⟨"llm", ""⟩,
        handlerRun := fun _ _ _ => .ok {}, health := .ok true,
        generate := .ok [ollamaTransportFaultChunk "http://localhost:11434"],
        now := 0, nowStr := "T" } [] =
      .ok ⟨⟨ollamaTransportFaultChunk "http://localhost:11434", "assistant", none, none, none⟩,
        [(("anon_default" : String),
          ⟨[("intent_classification", ⟨"llm", ""⟩)], 0⟩)], 0⟩ ∧
    ollamaTransportFaultChunk "http://localhost:11434" ≠
      get_fallback_response "T" "tell me a joke" := by
  constructor
  · rfl
  · decide

/-- C5 amended: when the probe succeeds and the generation call suffers a
transport fault, the fault is surfaced: the generator's error chunk becomes
the user-visible response verbatim, and the rule-based fallback is used
exactly when the probe fails or an exception escapes the generation
pipeline; in all cases the session state after the call records only the
intent classification, so no degraded verdict is persisted for subsequent
messages. -/
theorem C5_generation_fault_path (env : RouterEnv) (ss : Sessions) (data : ChatRequest)
    (url : String)
    (hparse : env.parse = .ok data) (hmsg : data.message ≠ "")
    (hllm : (env.classify data.message).type = "llm") :
    (env.health = .ok true → env.generate = .ok [ollamaTransportFaultChunk url] →
      ∃ out, handle_chat env ss = .ok out ∧
        out.resp.response = ollamaTransportFaultChunk url ∧
        out.resp.source = "assistant") ∧
    ((env.health = .ok false ∨ (∃ e, env.health = .error e) ∨
        (∃ e, env.generate = .error e)) →
      ∃ out, handle_chat env ss = .ok out ∧
        out.resp.response = get_fallback_response env.nowStr data.message) ∧
    (∀ out, handle_chat env ss = .ok out →
      out.sessionsAfter = storeIntent (sessionKey data.user_id data.session_id)
        (env.classify data.message)
        (ensure_session env.now data.user_id data.session_id ss).1) := by
  have hm' : (data.message ≠ "") = True := eq_true hmsg
  have hgf : ((env.classify data.message).type == "google") = false := by
    rw [hllm]; decide
  have hlt : ((env.classify data.message).type == "llm") = true := by
    rw [hllm]; decide
  refine ⟨?_, ?_, ?_⟩
  · intro hh hg
    simp only [handle_chat, hparse, hm', if_true, hgf, hlt, hh, hg,
      Bool.false_eq_true, if_false]
    exact ⟨_, rfl, rfl, rfl⟩
  · rintro (hh | ⟨e, hh⟩ | ⟨e, hg⟩)
    · simp only [handle_chat, hparse, hm', if_true, hgf, hlt, hh,
        Bool.false_eq_true, if_false]
      exact ⟨_, rfl, rfl⟩
    · simp only [handle_chat, hparse, hm', if_true, hgf, hlt, hh,
        Bool.false_eq_true, if_false]
      exact ⟨_, rfl, rfl⟩
    · cases hh : env.health with
      | error e' =>
        simp only [handle_chat, hparse, hm', if_true, hgf, hlt, hh,
          Bool.false_eq_true, if_false]
        exact ⟨_, rfl, rfl⟩
      | ok b =>
        cases b with
        | false =>
          simp only [handle_chat, hparse, hm', if_true, hgf, hlt, hh,
            Bool.false_eq_true, if_false]
          exact ⟨_, rfl, rfl⟩
        | true =>
          simp only [handle_chat, hparse, hm', if_true, hgf, hlt, hh, hg,
            Bool.false_eq_true, if_false]
          exact ⟨_, rfl, rfl⟩
  · intro out hout
    simp only [handle_chat, hparse, hm', if_true, hgf, hlt,
      Bool.false_eq_true, if_false] at hout
    cases hh : env.health with
    | error e =>
      rw [hh] at hout
      simp only [Except.ok.injEq] at hout
      subst hout
      rfl
    | ok b =>
      cases b with
      | false =>
        rw [hh] at hout
        simp only [Except.ok.injEq] at hout
        subst hout
        rfl
      | true =>
        rw [hh] at hout
        cases hg : env.generate with
        | error e =>
          rw [hg] at hout
          simp only [Except.ok.injEq] at hout
          subst hout
          rfl
        | ok chunks =>
          rw [hg] at hout
          simp only [Except.ok.injEq] at hout
          subst hout
          rfl

/-- C5 witness. -/
theorem C5_generation_fault_path_witness :
    ∃ out, handle_chat
      { parse := .ok { message := "tell me a joke" }, classify := fun _ => ⟨"llm", ""⟩,
        handlerRun := fun _ _ _ => .ok {}, health := .ok true,
        generate := .ok [ollamaTransportFaultChunk "http://localhost:11434"],
        now := 0, nowStr := "T" } [] = .ok out ∧
      out.resp.response = ollamaTransportFaultChunk "http://localhost:11434" ∧
      out.resp.source = "assistant" :=
  (C5_generation_fault_path _ [] { message := "tell me a joke" }
    "http://localhost:11434" rfl (by decide) rfl).1 rfl rfl

/-- Responses built by the shared tail of the router carry no instruction
side-channel. -/
@[simp] theorem finishResp_instruction (t s : String) (ss : Sessions) (n : Nat) :
    (finishResp t s ss n).resp.instruction = none := rfl

/-- C7: a structured sms message whose handler result carries an
`instruction` is answered through the early-return path that threads the
instruction verbatim into the outbound response together with the handler's
`recipient` and `message_content`; conversely, any outbound response that
carries an instruction originated from exactly that path, so no other
service's response (and no llm/auth/system response) ever has one. -/
theorem C7_instruction_side_channel (env : RouterEnv) (ss : Sessions) (data : ChatRequest)
    (r : ServiceResult) (instr : String)
    (hparse : env.parse = .ok data) (hmsg : data.message ≠ "")
    (hcls : env.classify data.message = ⟨"google", "sms"⟩)
    (htok : tokenTruthy data.access_token = true)
    (hrun : env.handlerRun "sms" data.message data.access_token = .ok r)
    (hinstr : r.instruction = some instr) :
    (handle_chat env ss = .ok
      ⟨⟨format_google_service_response "sms" r, "google_sms", some instr, r.recipient,
        r.message_content⟩,
       storeIntent (sessionKey data.user_id data.session_id) ⟨"google", "sms"⟩
         (ensure_session env.now data.user_id data.session_id ss).1, 1⟩) ∧
    (∀ env' : RouterEnv, ∀ ss' : Sessions, ∀ out : RouterOutcome,
      handle_chat env' ss' = .ok out → out.resp.instruction.isSome = true →
      ∃ data' r', env'.parse = .ok data' ∧
        (env'.classify data'.message).type = "google" ∧
        (env'.classify data'.message).service = "sms" ∧
        env'.handlerRun "sms" data'.message data'.access_token = .ok r' ∧
        out.resp.instruction = r'.instruction ∧
        out.resp.recipient = r'.recipient ∧
        out.resp.message_content = r'.message_content) := by
  have hm' : (data.message ≠ "") = True := eq_true hmsg
  constructor
  · simp only [handle_chat, hparse, hm', if_true, hcls, htok, hrun, hinstr,
      beq_self_eq_true, Bool.not_true, Bool.false_eq_true, if_false,
      Option.isSome_some, Bool.and_self,
      show knownServices.contains "sms" = true from by decide, if_true]
    rfl
  · intro env' ss' out hout hsome
    cases hp : env'.parse with
    | error e =>
      simp only [handle_chat, hp] at hout
      exact Except.noConfusion hout
    | ok data' =>
      by_cases hm2 : data'.message ≠ ""
      · have hm2' : (data'.message ≠ "") = True := eq_true hm2
        simp only [handle_chat, hp, hm2', if_true] at hout
        split at hout
        · -- google branch
          rename_i hg
          split at hout
          · -- missing credential: auth response, no instruction
            simp only [Except.ok.injEq] at hout
            subst hout
            simp at hsome
          · rename_i htk
            split at hout
            · -- known service: match on the handler outcome
              split at hout
              · -- handler raised: scoped error, no instruction
                simp only [Except.ok.injEq] at hout
                subst hout
                simp at hsome
              · rename_i r' heq
                split at hout
                · -- the sms instruction early return
                  rename_i hsms
                  simp only [Except.ok.injEq] at hout
                  subst hout
                  rw [Bool.and_eq_true] at hsms
                  obtain ⟨hsvc, hins⟩ := hsms
                  have hsvc' : (env'.classify data'.message).service = "sms" := by
                    simpa using hsvc
                  have hg' : (env'.classify data'.message).type = "google" := by
                    simpa using hg
                  refine ⟨data', r', rfl, hg', hsvc', ?_, rfl, rfl, rfl⟩
                  rw [← hsvc']
                  exact heq
                · -- handler result without instruction: formatted reply only
                  simp only [Except.ok.injEq] at hout
                  subst hout
                  simp at hsome
            · -- unregistered service: "not yet implemented", no instruction
              simp only [Except.ok.injEq] at hout
              subst hout
              simp at hsome
        · rename_i hg
          split at hout
          · -- llm branch: all outcomes go through the shared tail
            split at hout
            · simp only [Except.ok.injEq] at hout
              subst hout
              simp at hsome
            · split at hout
              · simp only [Except.ok.injEq] at hout
                subst hout
                simp at hsome
              · simp only [Except.ok.injEq] at hout
                subst hout
                simp at hsome
            · simp only [Except.ok.injEq] at hout
              subst hout
              simp at hsome
          · -- unknown intent type
            simp only [Except.ok.injEq] at hout
            subst hout
            simp at hsome
      · have hm2' : (data'.message ≠ "") = False := eq_false hm2
        simp only [handle_chat, hp, hm2', if_false] at hout
        simp only [Except.ok.injEq] at hout
        subst hout
        simp at hsome

/-- C7 witness. -/
theorem C7_instruction_side_channel_witness :
    handle_chat
      { parse := .ok { message := "Text Mom saying I'll be late", access_token := some "tok" },
        classify := fun _ => ⟨"google", "sms"⟩,
        handlerRun := fun _ m tok => .ok (handle_sms {} m tok),
        health := .ok true, generate := .ok [], now := 0, nowStr := "" } [] =
      .ok ⟨⟨format_google_service_response "sms"
              (handle_sms {} "Text Mom saying I'll be late" (some "tok")), "google_sms",
            some "SEND_SMS",
            (handle_sms {} "Text Mom saying I'll be late" (some "tok")).recipient,
            (handle_sms {} "Text Mom saying I'll be late" (some "tok")).message_content⟩,
        storeIntent (sessionKey "anon" "default") ⟨"google", "sms"⟩
          (ensure_session 0 "anon" "default" []).1, 1⟩ :=
  (C7_instruction_side_channel _ []
    { message := "Text Mom saying I'll be late", access_token := some "tok" }
    (handle_sms {} "Text Mom saying I'll be late" (some "tok")) "SEND_SMS"
    rfl (by decide) rfl rfl rfl (by decide)).1
